import Mathlib

/-!
Verification development for the astropysics CCD image engine
(`astropysics/ccd.py`) and the builtin parametric models
(`astropysics/models/modbuiltins.py`).

The Python source is shallowly embedded: numpy 2-D arrays become
`List (List α)` over a linear ordered field (`ℚ` where the claims need
concrete evaluation, `ℝ` where the source computes logarithms, powers or
standard deviations), Python exceptions become `Except String`, and
Python slice indexing is modelled by `pyIdx`/`pySlice` below.
-/

namespace Astropysics

/-- Python slice-index normalization for an index `a` into an axis of
length `n`: a negative index counts from the end (clamped at 0), a
non-negative index is clamped at `n`.  This is the semantics of
`im[a:b]` used by `CCDImage.activateRange`. -/
def pyIdx (a : Int) (n : Nat) : Nat :=
  if a < 0 then (a + n).toNat else min a.toNat n

/-- Python list/array slicing `l[a:b]` (step 1): the elements with
normalized indices in `[pyIdx a n, pyIdx b n)`. -/
def pySlice {α : Type} (l : List α) (a b : Int) : List α :=
  (l.drop (pyIdx a l.length)).take (pyIdx b l.length - pyIdx a l.length)

/-- The out-of-extent fixups of `CCDImage.activateRange` for one axis
(source: the `if xu-xl > xr: ... elif xl < 0: ... elif xu > xr: ...`
block).  Note the third branch returns `(l - u, ext)` exactly as the
source writes `xl,xu=xl-xu,xr`; the negative lower bound is later
interpreted by Python slice semantics (`pyIdx`). -/
def fixAxis (l u ext : Int) : Int × Int :=
  if u - l > ext then (0, ext)
  else if l < 0 then (0, u - l)
  else if u > ext then (l - u, ext)
  else (l, u)

/-- The per-axis validation of `CCDImage.activateRange`: a size-0 span
raises, a reversed span is swapped, then the out-of-extent fixups of
`fixAxis` are applied. -/
def checkAxis (l u ext : Int) : Except String (Int × Int) :=
  if u ≤ l then
    if u = l then .error "tried to activate size 0 range"
    else .ok (fixAxis u l ext)
  else .ok (fixAxis l u ext)

section Engine

variable {K : Type} [LinearOrderedField K]

/-- `np.min` over a flattened array (arrays in the source are never
empty; the empty case is given an arbitrary value). -/
def npMin (l : List K) : K :=
  match l with
  | [] => 0
  | x :: xs => xs.foldl min x

/-- `np.max` over a flattened array. -/
def npMax (l : List K) : K :=
  match l with
  | [] => 0
  | x :: xs => xs.foldl max x

/-- `np.mean` over a flattened array. -/
def npMean (l : List K) : K :=
  l.sum / (l.length : K)

/-- Insertion of an element into a sorted list, for `npMedian`. -/
def insertSorted (x : K) : List K → List K
  | [] => [x]
  | y :: ys => if x ≤ y then x :: y :: ys else y :: insertSorted x ys

/-- Sorting a list of values, for `npMedian`. -/
def sortVals (l : List K) : List K :=
  l.foldr insertSorted []

/-- `np.median` over a flattened array: middle element of the sorted
values, or the average of the two middle elements for even length. -/
def npMedian (l : List K) : K :=
  let s := sortVals l
  let n := s.length
  if n % 2 = 1 then s.getD (n / 2) 0
  else (s.getD (n / 2 - 1) 0 + s.getD (n / 2) 0) / 2

/-- The Python builtin `sum` applied to a 2-D boolean numpy array, as
done by `_repl_inds` (`sum(cliparr)`): it adds up the rows elementwise
(booleans promoting to integers), yielding the list of per-column
counts rather than a scalar count of flagged elements. -/
def colSums (m : List (List Bool)) : List Nat :=
  match m.map (fun r => r.map (fun b => if b then (1 : Nat) else 0)) with
  | [] => []
  | r :: rs => rs.foldl (fun acc row => acc.zipWith (· + ·) row) r

/-- Fancy-assignment `im[cliparr] = v`: set every flagged position of
`im` to `v`. -/
def setWhere (im : List (List K)) (cliparr : List (List Bool)) (v : K) :
    List (List K) :=
  im.zipWith (fun row mrow => row.zipWith (fun x b => if b then v else x) mrow)
    cliparr

/-- The scaling transform held by a `CCDImage`: either the identity
installed by `setScaling(None)` (where `_invscalefunc is _scalefunc`
holds, both being the same lambda object) or a forward function with an
optional inverse. -/
inductive ScaleSpec (K : Type) where
  | ident : ScaleSpec K
  | custom (f : K → K) (finv : Option (K → K)) : ScaleSpec K

/-- The forward scaling function `self._scalefunc`. -/
def ScaleSpec.fwd : ScaleSpec K → (K → K)
  | .ident => fun x => x
  | .custom f _ => f

/-- The mutable state of a `CCDImage`: the raster of the current HDU
(`self.file[self._chdu].data`), the stored range `self._rng` (kept as
the list form of the tuple: the source stores the *requested* range,
not the clamped one), the scaling transform, the active view
`self._active` together with its mask when `_repl_inds` produced a
masked array, the dirty flag `self._changed`, the calibration
properties, and the cached global statistics. -/
structure CCD (K : Type) where
  data : List (List K)
  rng : Option (List Int)
  scale : ScaleSpec K
  active : List (List K)
  activeMask : Option (List (List Bool))
  changed : Bool
  zeropoint : Option K := none
  pixelscale : Option (K × K) := none
  gmedian : K
  gmean : K
  gstd : K
  gmin : K
  gmax : K

/-- `CCDImage._calcGlobalStats`: recompute the cached whole-raster
statistics.  `np.std` needs a square root, which the field `K` does not
provide in general, so the numerical square root is passed in as
`sqrtF` (instantiated with `Real.sqrt` over `ℝ`); no claim below
depends on its value. -/
def calcGlobalStats (sqrtF : K → K) (st : CCD K) : CCD K :=
  let v := st.data.flatten
  { st with
    gmedian := npMedian v
    gmean := npMean v
    gstd := sqrtF (npMean (v.map (fun x => (x - npMean v) ^ 2)))
    gmin := npMin v
    gmax := npMax v }

/-- numpy slice assignment `d[r0:r1, c0:c1] = v` on a rectangular 2-D
array: the value must have exactly the shape of the target region
(broadcasting beyond the exact shape is not needed by any use below and
is modelled as the numpy broadcast error). -/
def npSetSlice2D (d : List (List K)) (r0 r1 c0 c1 : Int)
    (v : List (List K)) : Except String (List (List K)) :=
  let nR := d.length
  let nC := (d.headD []).length
  let rs := pyIdx r0 nR
  let re := pyIdx r1 nR
  let cs := pyIdx c0 nC
  let ce := pyIdx c1 nC
  if v.length = re - rs ∧ v.all (fun row => row.length = ce - cs) then
    .ok (d.mapIdx fun i row =>
      if rs ≤ i ∧ i < re then
        row.mapIdx fun j x =>
          if cs ≤ j ∧ j < ce then ((v.getD (i - rs) []).getD (j - cs) x)
          else x
      else row)
  else .error "could not broadcast input array"

/-- `CCDImage.activateRange(range)`, modelled with `hdu=None` and the
constructor default `applyChangesOnActivate=False` (so the auto-commit
branch is never entered).  The raster is transposed, a 3-element range
is converted to a corner box, the per-axis checks and recentering
fixups of `checkAxis` are applied, the (possibly negative) resulting
bounds are interpreted by Python slice semantics (`pySlice`), and the
forward scaling function is applied to the extracted sub-array.  As in
the source, `self._rng` stores the range *before* the fixups. -/
def CCD.activateRange (rng : Option (List Int)) (st : CCD K) :
    Except String (CCD K) :=
  match rng with
  | none =>
      let im := st.data.transpose
      .ok { st with rng := none,
                    active := im.map (fun r => r.map st.scale.fwd),
                    activeMask := none }
  | some r =>
      (match r with
       | [xc, yc, rad] => Except.ok [xc - rad, xc + rad, yc - rad, yc + rad]
       | [xl, xu, yl, yu] => Except.ok [xl, xu, yl, yu]
       | _ => Except.error "Unregonized form for range") >>= fun r4 =>
      match r4 with
      | [xl, xu, yl, yu] =>
          let im := st.data.transpose
          let xr := im.length
          let yr := (im.headD []).length
          checkAxis xl xu xr >>= fun xb =>
          checkAxis yl yu yr >>= fun yb =>
          let sub := (pySlice im xb.1 xb.2).map
            (fun row => pySlice row yb.1 yb.2)
          .ok { st with rng := some [xl, xu, yl, yu],
                        active := sub.map (fun r => r.map st.scale.fwd),
                        activeMask := none }
      | _ => Except.error "Unregonized form for range"

/-- `CCDImage.applyChanges()`: fails when no inverse scaling function
is available; when the transform is the identity installed by
`setScaling(None)` (detected in the source by `_invscalefunc is
_scalefunc`) nothing is written back; otherwise the inverse transform
of the active array is assigned, transposed, into
`data[xl:xu, yl:yu]` — exactly the index order the source uses.  Every
non-failing path then recomputes the global statistics and clears
`self._changed`. -/
def CCD.applyChanges (sqrtF : K → K) (st : CCD K) :
    Except String (CCD K) :=
  match st.scale with
  | .custom _ none => .error "No inverse function available"
  | .ident => .ok { calcGlobalStats sqrtF st with changed := false }
  | .custom _ (some finv) =>
      let altim := st.active.map (fun r => r.map finv)
      match st.rng with
      | none =>
          .ok { calcGlobalStats sqrtF { st with data := altim.transpose }
                  with changed := false }
      | some r =>
          match r with
          | [xl, xu, yl, yu] =>
              npSetSlice2D st.data xl xu yl yu altim.transpose >>= fun d =>
              .ok { calcGlobalStats sqrtF { st with data := d }
                      with changed := false }
          | _ => .error "Unregonized form for range"

/-- A replacement action accepted by `CCDImage._repl_inds`: one of the
recognized strings, a scalar constant, or any other string. -/
inductive ReplAction (K : Type) where
  | mask | median | fullmedian | noclipmedian
  | mean | fullmean | noclipmean
  | const (v : K)
  | unknownAction (s : String)

/-- `CCDImage._repl_inds(action, cliparr)` acting on the active array
`im` with the cached global statistics.  The `mask` action wraps the
array with the mask (`np.ma.masked_array`, modelled as the unchanged
data plus the mask); `median`/`mean` replace flagged values by the
statistic of the whole active array; `fullmedian`/`fullmean` use the
cached global statistic.  The `noclipmedian` and `noclipmean` branches
of the source read the undefined name `clipar` (the parameter is
spelled `cliparr`), so invoking them raises a `NameError`; they are
modelled as that failure.  The returned count is `sum(cliparr)`, the
per-column sums (`colSums`). -/
def replInds (action : ReplAction K) (cliparr : List (List Bool))
    (im : List (List K)) (gmedian gmean : K) :
    Except String ((List (List K)) × Option (List (List Bool)) × List Nat) :=
  match action with
  | .mask => .ok (im, some cliparr, colSums cliparr)
  | .median => .ok (setWhere im cliparr (npMedian im.flatten), none,
      colSums cliparr)
  | .fullmedian => .ok (setWhere im cliparr gmedian, none, colSums cliparr)
  | .noclipmedian => .error "NameError: name clipar is not defined"
  | .mean => .ok (setWhere im cliparr (npMean im.flatten), none,
      colSums cliparr)
  | .fullmean => .ok (setWhere im cliparr gmean, none, colSums cliparr)
  | .noclipmean => .error "NameError: name clipar is not defined"
  | .const v => .ok (setWhere im cliparr v, none, colSums cliparr)
  | .unknownAction _ => .error "unrecognized action"

/-- The `limits` argument of `CCDImage.clipOutliers`: a scalar
(`np.isscalar`) or a sequence. -/
inductive LimitSpec (K : Type) where
  | scalar (l : K)
  | seq (ls : List K)

/-- `CCDImage.clipOutliers(limits, percentage, action)`: a scalar limit
`l` is normalized to `(-l, l)`, a 2-sequence is used as-is, anything
else raises; with `percentage` the limits are mapped through the active
min/max range; values outside the limits are flagged and handed to
`_repl_inds`; on success the view is marked dirty. -/
def CCD.clipOutliers (limits : LimitSpec K) (percentage : Bool)
    (action : ReplAction K) (st : CCD K) :
    Except String (CCD K × List Nat) :=
  (match limits with
   | .scalar l => Except.ok (-l, l)
   | .seq [a, b] => Except.ok (a, b)
   | .seq _ => Except.error "unrecognized limit form") >>= fun lims =>
  let im := st.active
  let lims' :=
    if percentage then
      let mi := npMin im.flatten
      let ma := npMax im.flatten
      let rng := ma - mi
      (mi + lims.1 * rng / 100, mi + lims.2 * rng / 100)
    else lims
  let clipcond := im.map (fun r => r.map
    (fun x => decide (x > lims'.2) || decide (x < lims'.1)))
  replInds action clipcond im st.gmedian st.gmean >>= fun res =>
  .ok ({ st with active := res.1, activeMask := res.2.1, changed := true },
       res.2.2)

/-- `CCDImage.clipThreshold(thresh, action, comp)`: the comparator
string selects the mask; an unrecognized comparator raises before the
mask, the replacement, or any assignment to `self._active` /
`self._changed` happens. -/
def CCD.clipThreshold (thresh : K) (action : ReplAction K) (comp : String)
    (st : CCD K) : Except String (CCD K × List Nat) :=
  (if comp = "<" then Except.ok (st.active.map (fun r => r.map
      (fun x => decide (x < thresh))))
   else if comp = ">" then Except.ok (st.active.map (fun r => r.map
      (fun x => decide (x > thresh))))
   else if comp = ">=" then Except.ok (st.active.map (fun r => r.map
      (fun x => decide (x ≥ thresh))))
   else if comp = "<=" then Except.ok (st.active.map (fun r => r.map
      (fun x => decide (x ≤ thresh))))
   else Except.error "unrecognized comp operator") >>= fun m =>
  replInds action m st.active st.gmedian st.gmean >>= fun res =>
  .ok ({ st with active := res.1, activeMask := res.2.1, changed := true },
       res.2.2)

end Engine

/-- Forward scaling function of the commit example: a caller-supplied
pair passed to `setScaling` (any invertible non-identity pair exercises
the write-back path of `applyChanges`). -/
def commitFwd : ℚ → ℚ := fun x => x + 1

/-- Inverse scaling function of the commit example. -/
def commitInv : ℚ → ℚ := fun x => x - 1

/-- A `CCDImage` over a 4×4 raster with pairwise distinct pixel values,
scaled by the invertible pair `commitFwd`/`commitInv`. -/
def commitEx : CCD ℚ :=
  { data := [[0, 1, 2, 3], [4, 5, 6, 7], [8, 9, 10, 11], [12, 13, 14, 15]]
    rng := none
    scale := .custom commitFwd (some commitInv)
    active := []
    activeMask := none
    changed := false
    gmedian := 0, gmean := 0, gstd := 0, gmin := 0, gmax := 0 }

/-- A small active view used to instantiate the clipping theorems. -/
def clipEx : CCD ℚ :=
  { data := [[1, 2], [3, 100]]
    rng := none
    scale := .ident
    active := [[1, 2], [3, 100]]
    activeMask := none
    changed := false
    gmedian := 2, gmean := 3, gstd := 0, gmin := 1, gmax := 100 }

/-- `np.std` (over `ℝ`, where the square root lives) of a flattened
array, with numpy's delta-degrees-of-freedom convention:
`sqrt(sum((x - mean)^2) / (N - ddof))`; `ddof = 0` is the numpy
default used by `clipSigma`, `_customFit` passes 1 or 2. -/
noncomputable def npStd (ddof : ℕ) (l : List ℝ) : ℝ :=
  Real.sqrt ((l.map (fun x => (x - npMean l) ^ 2)).sum /
    ((l.length : ℝ) - (ddof : ℝ)))

/-- The data over which `CCDImage.clipSigma` computes its statistics:
with `fullsig` the forward scaling function applied to the raw raster,
otherwise `self._scalefunc(self._active)` — the scaling function
applied a second time to the already-scaled active view, exactly as the
source writes it. -/
def clipSigmaStatdat (fullsig : Bool) (scalefunc : ℝ → ℝ)
    (data active : List (List ℝ)) : List ℝ :=
  ((if fullsig then data else active).map (fun r => r.map scalefunc)).flatten

/-- `CCDImage.clipSigma(sigma, fullsig, action)`: flags the active-view
values lying strictly more than `sigma` standard deviations from the
mean, where mean and standard deviation are taken over
`clipSigmaStatdat`, then hands the mask to `_repl_inds` and marks the
view dirty. -/
noncomputable def CCD.clipSigma (sigma : ℝ) (fullsig : Bool)
    (action : ReplAction ℝ) (st : CCD ℝ) :
    Except String (CCD ℝ × List Nat) :=
  let statdat := clipSigmaStatdat fullsig st.scale.fwd st.data st.active
  let slim := sigma * npStd 0 statdat
  let mean := npMean statdat
  let wcond := st.active.map (fun r => r.map
    (fun x => decide (x > mean + slim ∨ x < mean - slim)))
  replInds action wcond st.active st.gmedian st.gmean >>= fun res =>
  .ok ({ st with active := res.1, activeMask := res.2.1, changed := true },
       res.2.2)

/-- A `CCDImage` holding the raw column `[0, 2]` under the `power`
scaling `x ↦ x²` (`setScalingPower(2)`), so the active view — the whole
transposed raster pushed through the forward function — is `[[0, 4]]`. -/
noncomputable def sigmaEx : CCD ℝ :=
  { data := [[0], [2]]
    rng := none
    scale := .custom (fun x => x * x) (some fun x => x ^ ((1 : ℝ) / 2))
    active := [[0, 4]]
    activeMask := none
    changed := false
    gmedian := 0, gmean := 0, gstd := 0, gmin := 0, gmax := 0 }

/-- `CCDImage.setScalingLog(lower, upper, base)`: the forward/inverse
pair installed for the three bound policies.  The source selects the
logarithm by base: `np.log10` with denominator 1 for base 10, and
`np.log` with denominator `log(base)` otherwise — except that the
`base == e` branch assigns the misspelled name `logfun` instead of
`logfunc`, so the installed scaling functions reference an undefined
name and the call fails with a `NameError` as soon as
`activateRange` (invoked at the end of `setScalingLog`) applies them;
that failure is modelled as the error value here.  `gmin`/`gmax` are
the cached global minimum/maximum consulted by the offset policies. -/
noncomputable def setScalingLogFuncs (lower upper : Option ℝ) (base : ℝ)
    (gmin gmax : ℝ) : Except String ((ℝ → ℝ) × (ℝ → ℝ)) :=
  (if base = 10 then Except.ok ((fun x : ℝ => Real.logb 10 x), (1 : ℝ))
   else if base = Real.exp 1 then
     Except.error "NameError: name logfunc is not defined"
   else Except.ok (Real.log, Real.log base)) >>= fun ld =>
  match lower with
  | none =>
      .ok (fun x => ld.1 x / ld.2, fun x => base ^ x)
  | some lo =>
      match upper with
      | none =>
          let lower2 := base ^ lo
          .ok (fun x => ld.1 (x - gmin + lower2) / ld.2,
               fun x => base ^ x + gmin - lower2)
      | some up =>
          let upper2 := base ^ up
          let lower2 := base ^ lo
          let range := (upper2 - lower2) / (gmax - gmin)
          .ok (fun x => ld.1 ((x - gmin) * range + lower2) / ld.2,
               fun x => ((base ^ x) - lower2) / range + gmin)

/-- `CCDImage.setScalingSurfaceBrightness()`: raises when the
zero-point or the pixel scale is missing — in the source both checks
precede every assignment, so the previous scaling functions and the
previous active view survive a failure — and otherwise installs the
magnitudes-per-square-arcsecond pair built from
`offset = 2.5*log10(pixelscale[0]*pixelscale[1]) - zeropoint` and
re-derives the active view from the stored range. -/
noncomputable def CCD.setScalingSurfaceBrightness (st : CCD ℝ) :
    Except String (CCD ℝ) :=
  match st.zeropoint with
  | none => .error "no zero point set"
  | some zpt =>
      match st.pixelscale with
      | none => .error "No pixel scale set"
      | some p =>
          let offset := 2.5 * Real.logb 10 (p.1 * p.2) - zpt
          let sc : ScaleSpec ℝ := .custom
            (fun im => -2.5 * Real.logb 10 im + offset)
            (some fun imsb => (10 : ℝ) ^ ((imsb - offset) / (-2.5)))
          CCD.activateRange st.rng { st with scale := sc }

/-- A `CCDImage` with no zero-point set. -/
noncomputable def sbExA : CCD ℝ :=
  { data := [[1, 2], [3, 4]]
    rng := none
    scale := .ident
    active := [[1, 3], [2, 4]]
    activeMask := none
    changed := false
    zeropoint := none
    pixelscale := some (2, 2)
    gmedian := 0, gmean := 0, gstd := 0, gmin := 0, gmax := 0 }

/-- A `CCDImage` with both a zero-point and a pixel scale set. -/
noncomputable def sbExB : CCD ℝ :=
  { data := [[1, 2], [3, 4]]
    rng := none
    scale := .ident
    active := [[1, 3], [2, 4]]
    activeMask := none
    changed := false
    zeropoint := some 25
    pixelscale := some (2, 2)
    gmedian := 0, gmean := 0, gstd := 0, gmin := 0, gmax := 0 }

/-- `LinearModel._customFit(x, y, fixedpars)` for the unweighted call
(`weights=None`; the `weights is not None` branch delegates to
`weightedFit`/the generic fitter and is outside every claim).  `m0` and
`b0` are the current parameter values `self.m`/`self.b` used when the
corresponding parameter is fixed.  Returns `(m, b, dm, db, dy)` where
the source packs `(np.array((m,b)), dm, db, dy)`. -/
noncomputable def linearCustomFit (fixedpars : List String) (m0 b0 : ℝ)
    (x y : List ℝ) : Except String (ℝ × ℝ × ℝ × ℝ × ℝ) :=
  let fixslope := fixedpars.contains "m"
  let fixint := fixedpars.contains "b"
  let N : ℝ := (x.length : ℝ)
  if !fixint && !fixslope then
    if y.length ≠ x.length then .error "data arrays are not same length!"
    else
      let sxsq := (x.map (fun v => v * v)).sum
      let sx := x.sum
      let sy := y.sum
      let sxy := (x.zipWith (fun a b => a * b) y).sum
      let delta := N * sxsq - sx ^ 2
      let m := (N * sxy - sx * sy) / delta
      let b := (sxsq * sy - sx * sxy) / delta
      let dy := npStd 2 (x.zipWith (fun xi yi => yi - m * xi - b) y)
      let dm := dy * (sxsq / delta) ^ ((0.5 : ℝ))
      let db := dy * (N / delta) ^ ((0.5 : ℝ))
      .ok (m, b, dm, db, dy)
  else if !fixint then
    let m := m0
    let b := (x.zipWith (fun xi yi => yi - m * xi) y).sum / N
    let dy := npStd 1 (x.zipWith (fun xi yi => yi - m * xi - b) y)
    .ok (m, b, 0, dy, dy)
  else if !fixslope then
    let b := b0
    let sx := x.sum
    let sxy := (x.zipWith (fun a b => a * b) y).sum
    let sxsq := (x.map (fun v => v * v)).sum
    let m := (sxy - b * sx) / sxsq
    let dy := npStd 1 (x.zipWith (fun xi yi => yi - m * xi - b) y)
    .ok (m, b, dy * sxsq ^ (-(0.5 : ℝ)), 0, dy)
  else .error "cannot fix both slope and intercept"

/-- `GaussianModel.f(x, A, sig, mu)`:
`tsq=(x-mu)*2**-0.5/sig; A*exp(-tsq*tsq)*(2*pi)**-0.5/sig`. -/
noncomputable def gaussianF (A sig mu x : ℝ) : ℝ :=
  let tsq := (x - mu) * (2 : ℝ) ^ (-(0.5 : ℝ)) / sig
  A * Real.exp (-(tsq * tsq)) * (2 * Real.pi) ^ (-(0.5 : ℝ)) / sig

/-- `GaussianModel.peak`: the property getter returns `self(self.mu)`. -/
noncomputable def gaussianPeak (A sig mu : ℝ) : ℝ :=
  gaussianF A sig mu mu

theorem pySlice_length {α : Type} (l : List α) (a b : Int) :
    (pySlice l a b).length = pyIdx b l.length - pyIdx a l.length := by
  have hb : pyIdx b l.length ≤ l.length := by
    unfold pyIdx; split <;> omega
  unfold pySlice
  rw [List.length_take, List.length_drop]
  omega

/-- The round trip behind the log scaling (the policy with no lower
bound, base 10): the installed inverse undoes the installed forward
function on positive values — the behavior `setScalingLog` exhibits for
every base except `e`, where it fails instead. -/
theorem setScalingLog_base10_roundtrip (gmin gmax v : ℝ) (hv : 0 < v) :
    ∃ fp : (ℝ → ℝ) × (ℝ → ℝ),
      setScalingLogFuncs none none 10 gmin gmax = .ok fp ∧
      fp.2 (fp.1 v) = v := by
  refine ⟨(fun x => Real.logb 10 x / 1, fun x => (10 : ℝ) ^ x), ?_, ?_⟩
  · unfold setScalingLogFuncs
    rw [if_pos rfl]
    rfl
  · simp only [div_one]
    exact Real.rpow_logb (by norm_num) (by norm_num) hv

/-- C1.  For a requested box whose (positively oriented) width and
height fit inside the image extents, `activateRange` produces, after
Python slice normalization, a box of exactly the requested width and
height inside `[0,xr)×[0,yr)`; on each axis the window is kept as-is
when in bounds, shifted right by `|low|` when `low < 0`, and shifted
left by the overflow `high - ext` when `high > ext`. -/
theorem activateRange_recenters (xl xu yl yu : Int) (xr yr : Nat)
    (hx : xl < xu) (hy : yl < yu)
    (hwx : xu - xl ≤ (xr : Int)) (hwy : yu - yl ≤ (yr : Int)) :
    ∃ xa xb ya yb : Int,
      checkAxis xl xu xr = .ok (xa, xb) ∧
      checkAxis yl yu yr = .ok (ya, yb) ∧
      (pyIdx xb xr : Int) - (pyIdx xa xr : Int) = xu - xl ∧
      (pyIdx yb yr : Int) - (pyIdx ya yr : Int) = yu - yl ∧
      pyIdx xb xr ≤ xr ∧ pyIdx yb yr ≤ yr ∧
      (0 ≤ xl → xu ≤ (xr : Int) →
        (pyIdx xa xr : Int) = xl ∧ (pyIdx xb xr : Int) = xu) ∧
      (xl < 0 →
        (pyIdx xa xr : Int) = 0 ∧ (pyIdx xb xr : Int) = xu - xl) ∧
      (0 ≤ xl → (xr : Int) < xu →
        (pyIdx xa xr : Int) = xl - (xu - xr) ∧ (pyIdx xb xr : Int) = xr) ∧
      (0 ≤ yl → yu ≤ (yr : Int) →
        (pyIdx ya yr : Int) = yl ∧ (pyIdx yb yr : Int) = yu) ∧
      (yl < 0 →
        (pyIdx ya yr : Int) = 0 ∧ (pyIdx yb yr : Int) = yu - yl) ∧
      (0 ≤ yl → (yr : Int) < yu →
        (pyIdx ya yr : Int) = yl - (yu - yr) ∧ (pyIdx yb yr : Int) = yr) := by
  obtain ⟨xa, xb, hxab⟩ : ∃ xa xb, fixAxis xl xu xr = (xa, xb) := ⟨_, _, rfl⟩
  obtain ⟨ya, yb, hyab⟩ : ∃ ya yb, fixAxis yl yu yr = (ya, yb) := ⟨_, _, rfl⟩
  refine ⟨xa, xb, ya, yb, ?_, ?_, ?_⟩
  · unfold checkAxis
    rw [if_neg (by omega), hxab]
  · unfold checkAxis
    rw [if_neg (by omega), hyab]
  · unfold fixAxis at hxab hyab
    unfold pyIdx
    split_ifs at hxab hyab <;>
      (injection hxab with hxa hxb; injection hyab with hya hyb; subst hxa;
       subst hxb; subst hya; subst hyb) <;>
      refine ⟨?_, ?_, ?_, ?_, ?_, ?_, ?_, ?_, ?_⟩ <;> split_ifs <;> omega

/-- C1 witness: requested box `(-2,3)×(1,4)` on a `10×5` image is
shifted right on the x axis and kept on the y axis. -/
theorem activateRange_recenters_witness :
    ∃ xa xb ya yb : Int,
      checkAxis (-2) 3 10 = .ok (xa, xb) ∧
      checkAxis 1 4 5 = .ok (ya, yb) ∧
      (pyIdx xb 10 : Int) - (pyIdx xa 10 : Int) = 3 - (-2) ∧
      (pyIdx yb 5 : Int) - (pyIdx ya 5 : Int) = 4 - 1 ∧
      pyIdx xb 10 ≤ 10 ∧ pyIdx yb 5 ≤ 5 ∧
      (0 ≤ (-2 : Int) → (3 : Int) ≤ (10 : Nat) →
        (pyIdx xa 10 : Int) = -2 ∧ (pyIdx xb 10 : Int) = 3) ∧
      ((-2 : Int) < 0 →
        (pyIdx xa 10 : Int) = 0 ∧ (pyIdx xb 10 : Int) = 3 - (-2)) ∧
      (0 ≤ (-2 : Int) → ((10 : Nat) : Int) < 3 →
        (pyIdx xa 10 : Int) = -2 - (3 - 10) ∧ (pyIdx xb 10 : Int) = 10) ∧
      (0 ≤ (1 : Int) → (4 : Int) ≤ (5 : Nat) →
        (pyIdx ya 5 : Int) = 1 ∧ (pyIdx yb 5 : Int) = 4) ∧
      ((1 : Int) < 0 →
        (pyIdx ya 5 : Int) = 0 ∧ (pyIdx yb 5 : Int) = 4 - 1) ∧
      (0 ≤ (1 : Int) → ((5 : Nat) : Int) < 4 →
        (pyIdx ya 5 : Int) = 1 - (4 - 5) ∧ (pyIdx yb 5 : Int) = 5) :=
  activateRange_recenters (-2) 3 1 4 10 5 (by decide) (by decide)
    (by decide) (by decide)

/-- C5.  Counter-evidence for the commit path: the scaling pair of
`commitEx` satisfies `inverse (forward v) = v`, so committing an
untouched active view must leave the raster unchanged — the inverse
transform of the active array equals the original sub-raster, and the
claim says it is written back at the active box's coordinates.  The
active box `(0,2)×(1,3)` covers `data[1:3, 0:2]` (the view is read from
the transposed raster, `im = data.T`), but `applyChanges` assigns
`altim.T` into `data[xl:xu, yl:yu] = data[0:2, 1:3]`: the raster comes
back changed — cell `(0,1)` becomes `4` instead of staying `1` — and
the write lands outside the active box.  (For a non-square box the same
assignment fails with a numpy broadcast error.)  The global-statistics
recomputation is independent of the square root `sqrtF`, which is why
the result below does not depend on it. -/
theorem applyChanges_writes_transposed_region :
    (∀ v : ℚ, commitInv (commitFwd v) = v) ∧
    ∀ sqrtF : ℚ → ℚ,
      ((commitEx.activateRange (some [0, 2, 1, 3])).bind
          (CCD.applyChanges sqrtF)).map CCD.data =
        .ok [[0, 4, 5, 3], [4, 8, 9, 7], [8, 9, 10, 11], [12, 13, 14, 15]] ∧
      ([[0, 4, 5, 3], [4, 8, 9, 7], [8, 9, 10, 11], [12, 13, 14, 15]] :
          List (List ℚ)) ≠ commitEx.data := by
  refine ⟨fun v => by simp [commitInv, commitFwd],
    fun sqrtF => ⟨by with_unfolding_all rfl, ?_⟩⟩
  decide

/-- C2.  The `noclipmedian` replacement policy fails on the undefined
name `clipar` instead of replacing the flagged element: on the active
view `[[1,2],[3,100]]` with exactly the value `100` flagged, the claim
expects the flagged cell to become the median of the non-flagged values
`[1,2,3]` — which is `2`, as the second conjunct shows using the same
median the other branches use — and the count `1` to be returned, but
`_repl_inds` raises a `NameError`. -/
theorem replInds_noclipmedian_raises :
    replInds (K := ℚ) .noclipmedian [[false, false], [false, true]]
        [[1, 2], [3, 100]] 0 0 =
      .error "NameError: name clipar is not defined" ∧
    npMedian ([1, 2, 3] : List ℚ) = 2 := by
  constructor
  · rfl
  · decide

/-- C9.  `clipThreshold` with a comparator other than `<`, `>`, `<=`,
`>=` raises before any mask is computed and before `self._active` or
`self._changed` is assigned: the call produces only the error, no
successor state. -/
theorem clipThreshold_bad_comp {K : Type} [LinearOrderedField K]
    (thresh : K) (action : ReplAction K) (comp : String) (st : CCD K)
    (h1 : comp ≠ "<") (h2 : comp ≠ ">") (h3 : comp ≠ ">=")
    (h4 : comp ≠ "<=") :
    st.clipThreshold thresh action comp = .error "unrecognized comp operator" := by
  unfold CCD.clipThreshold
  rw [if_neg h1, if_neg h2, if_neg h3, if_neg h4]
  rfl

/-- C9 witness: the comparator `!=` is rejected on a concrete state. -/
theorem clipThreshold_bad_comp_witness :
    clipEx.clipThreshold 2 .mask "!=" = .error "unrecognized comp operator" :=
  clipThreshold_bad_comp 2 .mask "!=" clipEx (by decide) (by decide)
    (by decide) (by decide)

/-- C10.  `clipOutliers` with a scalar limit `l` behaves identically to
the pair `(-l, l)`, and a limits sequence that is not a 2-sequence is
rejected before the active view or the dirty flag is touched. -/
theorem clipOutliers_scalar_limit {K : Type} [LinearOrderedField K]
    (l : K) (percentage : Bool) (action : ReplAction K) (st : CCD K)
    (ls : List K) (hls : ls.length ≠ 2) :
    st.clipOutliers (.scalar l) percentage action =
      st.clipOutliers (.seq [-l, l]) percentage action ∧
    st.clipOutliers (.seq ls) percentage action =
      .error "unrecognized limit form" := by
  refine ⟨rfl, ?_⟩
  match ls, hls with
  | [], _ => rfl
  | [_], _ => rfl
  | [_, _], h => exact absurd rfl h
  | _ :: _ :: _ :: _, _ => rfl

/-- C10 witness: scalar limit `40` equals the pair `(-40, 40)` on a
concrete state, and the 3-sequence `[1,2,3]` is rejected. -/
theorem clipOutliers_scalar_limit_witness :
    clipEx.clipOutliers (.scalar 40) true (.const 0) =
      clipEx.clipOutliers (.seq [-40, 40]) true (.const 0) ∧
    clipEx.clipOutliers (.seq [1, 2, 3]) true (.const 0) =
      .error "unrecognized limit form" :=
  clipOutliers_scalar_limit 40 true (.const 0) clipEx [1, 2, 3] (by decide)

/-- C4.  Counter-evidence for the log-scaling round trip with base `e`:
`setScalingLog` fails for base `e` — with any bound policy — because
its base-`e` branch assigns the misspelled `logfun` and the installed
scaling functions then reference the undefined name `logfunc`; no
forward/inverse pair is ever usable, against the claim that every base
round-trips.  (For the other bases the pair does round-trip, see
`setScalingLog_base10_roundtrip`.) -/
theorem setScalingLog_base_e_raises (lower upper : Option ℝ)
    (gmin gmax : ℝ) :
    setScalingLogFuncs lower upper (Real.exp 1) gmin gmax =
      .error "NameError: name logfunc is not defined" := by
  have h10 : Real.exp 1 ≠ 10 :=
    ne_of_lt (lt_trans Real.exp_one_lt_d9 (by norm_num))
  unfold setScalingLogFuncs
  rw [if_neg h10, if_pos rfl]
  rfl

theorem sqrt64 : Real.sqrt 64 = 8 := by
  rw [show (64 : ℝ) = 8 ^ 2 by norm_num]
  exact Real.sqrt_sq (by norm_num)

theorem npMean_0_16 : npMean ([0, 16] : List ℝ) = 8 := by
  simp [npMean]
  norm_num

theorem npStd_0_16 : npStd 0 ([0, 16] : List ℝ) = 8 := by
  unfold npStd
  simp only [npMean_0_16]
  norm_num [sqrt64]

theorem npMean_0_4 : npMean ([0, 4] : List ℝ) = 2 := by
  simp [npMean]; norm_num

theorem npStd_0_4 : npStd 0 ([0, 4] : List ℝ) = 2 := by
  unfold npStd
  simp only [npMean_0_4]
  norm_num
  rw [show (4 : ℝ) = 2 ^ 2 by norm_num]
  exact Real.sqrt_sq (by norm_num)

/-- C3.  Counter-evidence for the active-view sigma clip: on the state
`sigmaEx` (active view `[[0, 4]]`, power-2 scaling), `clipSigma` with
`n = 1/2` and `use_full_image` false flags only the value `0` — its
statistics come from `scalefunc(active) = [0, 16]` (mean 8, std 8), the
scaling applied a *second* time — although the value `4` lies more than
`n` standard deviations above the mean of the active view itself
(mean 2, std 2), so the claim's flag set `{0, 4}` disagrees with the
code's `{0}`. -/
theorem clipSigma_stats_double_scaled :
    (sigmaEx.clipSigma (1/2) false .mask).map (fun p => p.1.activeMask) =
      .ok (some [[true, false]]) ∧
    (4 : ℝ) > npMean [0, 4] + (1/2) * npStd 0 [0, 4] := by
  constructor
  · have hstat : clipSigmaStatdat false (ScaleSpec.fwd sigmaEx.scale)
        sigmaEx.data sigmaEx.active = [0, 16] := by
      simp [clipSigmaStatdat, sigmaEx, ScaleSpec.fwd]
      norm_num
    unfold CCD.clipSigma
    rw [hstat]
    simp only [npMean_0_16, npStd_0_16]
    norm_num [sigmaEx, replInds, colSums, Except.map, Except.bind]
    rfl
  · rw [npMean_0_4, npStd_0_4]
    norm_num

/-- C6.  `setScalingSurfaceBrightness` fails with the calibration
errors when the zero-point or the pixel scale is unset — returning only
the error, so the previously installed scaling functions and active
view persist (in the source both checks precede every assignment) —
and otherwise installs forward `v ↦ -2.5*log10(v) + offset` and inverse
`v ↦ 10^((v-offset)/(-2.5))` with
`offset = 2.5*log10(pixel_area) - zeropoint`. -/
theorem setScalingSurfaceBrightness_spec (st : CCD ℝ) :
    (st.zeropoint = none →
      st.setScalingSurfaceBrightness = .error "no zero point set") ∧
    (∀ z : ℝ, st.zeropoint = some z → st.pixelscale = none →
      st.setScalingSurfaceBrightness = .error "No pixel scale set") ∧
    (∀ z px py : ℝ, st.zeropoint = some z → st.pixelscale = some (px, py) →
      st.rng = none →
      ∃ st2 : CCD ℝ, st.setScalingSurfaceBrightness = .ok st2 ∧
        st2.scale = .custom
          (fun v => -2.5 * Real.logb 10 v + (2.5 * Real.logb 10 (px * py) - z))
          (some fun v =>
            (10 : ℝ) ^ ((v - (2.5 * Real.logb 10 (px * py) - z)) / (-2.5)))) := by
  refine ⟨fun h => ?_, fun z hz hp => ?_, fun z px py hz hp hr => ?_⟩
  · unfold CCD.setScalingSurfaceBrightness
    rw [h]
  · unfold CCD.setScalingSurfaceBrightness
    rw [hz, hp]
  · unfold CCD.setScalingSurfaceBrightness
    rw [hz, hp, hr]
    exact ⟨_, rfl, rfl⟩

/-- C6 witness: the zero-point-less state `sbExA` is rejected, and the
fully calibrated state `sbExB` (zero-point 25, pixel scale `(2,2)`)
receives the surface-brightness pair. -/
theorem setScalingSurfaceBrightness_spec_witness :
    sbExA.setScalingSurfaceBrightness = .error "no zero point set" ∧
    ∃ st2 : CCD ℝ, sbExB.setScalingSurfaceBrightness = .ok st2 ∧
      st2.scale = .custom
        (fun v => -2.5 * Real.logb 10 v + (2.5 * Real.logb 10 ((2:ℝ) * 2) - 25))
        (some fun v =>
          (10 : ℝ) ^ ((v - (2.5 * Real.logb 10 ((2:ℝ) * 2) - 25)) / (-2.5))) :=
  ⟨(setScalingSurfaceBrightness_spec sbExA).1 rfl,
   (setScalingSurfaceBrightness_spec sbExB).2.2 25 2 2 rfl rfl rfl⟩

/-- C7.  `LinearModel._customFit` on the points
`(0,0), (1,2), (2,4), (3,6)` with no fixed parameters and no weights
returns slope `m = 2`, intercept `b = 0`, and residual standard
deviation `dy = 0` (together with zero parameter errors), whatever the
current parameter values `m0`, `b0` are. -/
theorem linearCustomFit_line (m0 b0 : ℝ) :
    linearCustomFit [] m0 b0 [0, 1, 2, 3] [0, 2, 4, 6] =
      .ok (2, 0, 0, 0, 0) := by
  unfold linearCustomFit
  norm_num [List.contains, npStd, npMean, Real.sqrt_zero]

/-- C8.  `GaussianModel.f` evaluated at `x = mu` equals
`A * (2*pi)^(-1/2) / sig`, and the `peak` property getter returns
exactly this evaluation. -/
theorem gaussianF_peak (A sig mu : ℝ) (_h : 0 < sig) :
    gaussianF A sig mu mu = A * (2 * Real.pi) ^ (-(1/2 : ℝ)) / sig ∧
    gaussianPeak A sig mu = gaussianF A sig mu mu := by
  constructor
  · unfold gaussianF
    norm_num [Real.exp_zero]
  · rfl

/-- C8 witness: the standard normal peak at `A = 1`, `sig = 1`,
`mu = 0`. -/
theorem gaussianF_peak_witness :
    gaussianF 1 1 0 0 = 1 * (2 * Real.pi) ^ (-(1/2 : ℝ)) / 1 ∧
    gaussianPeak 1 1 0 = gaussianF 1 1 0 0 :=
  gaussianF_peak 1 1 0 (by norm_num)

end Astropysics
